import Mathlib

/-!
Verification of the NetFree relay service (`src/main.py`).

Shallow embedding of the response acquisition and classification pipeline:
upstream fetcher (`make_request`), credential refresher (`get_fresh_cookies`),
response classifier (`process_response` with `detect_binary_format`), the
retry coordinator and failure reclassifier inside `get_playlist`, and the
HLS source extractor (`get_hls_url`).

Modelling conventions:
* Python `bytes` values are `List Nat` with every element `< 256`.
* Python `str` values are Lean `String`.
* Parsed JSON documents are the inductive `JsonVal` (numbers modelled as
  integers; no claim mentions a numeric JSON payload).
* Library primitives the code calls (`base64.b64encode`, `bytes.decode`
  with the utf-8 codec) are implemented concretely below following their
  documented behaviour; `json.loads` is a parameter of the classifier,
  since the claims only constrain how its result is propagated.
* Network I/O (`requests.get`) is modelled by passing the outcome of the
  call as an explicit argument; `random.choice` by passing the picking
  function as an argument.
* A Python exception escaping a function is an `Except.error`.
-/

set_option autoImplicit false

namespace NetFree

/-- Python byte strings: lists of byte values. -/
abbrev Bytes := List Nat

/-- Parsed JSON documents, as produced by `json.loads`. -/
inductive JsonVal where
  | null
  | bool (b : Bool)
  | num (n : Int)
  | str (s : String)
  | arr (elems : List JsonVal)
  | obj (fields : List (String × JsonVal))
deriving BEq

/-- Python exceptions that the embedded fragments can raise. -/
inductive PyExn where
  | nameError (missing : String)
  | keyError (key : String)
  | attributeError
  | typeError
  | httpException (status : Nat) (detail : String)
deriving DecidableEq

/-! ## base64 (models `base64.b64encode` / decoding of its output)

`b64Encode` maps a byte list to the ASCII codes of its standard base64
encoding with `=` padding (61 is the code of `=`); `b64Decode` is the
inverse reading used to state the round-trip claim. -/

/-- Code of the base64 alphabet character for a 6-bit group. -/
def b64Char (n : Nat) : Nat :=
  if n < 26 then 65 + n
  else if n < 52 then 97 + (n - 26)
  else if n < 62 then 48 + (n - 52)
  else if n = 62 then 43
  else 47

/-- Index of a base64 alphabet character, inverse of `b64Char`. -/
def b64Index (c : Nat) : Nat :=
  if 65 ≤ c ∧ c ≤ 90 then c - 65
  else if 97 ≤ c ∧ c ≤ 122 then c - 97 + 26
  else if 48 ≤ c ∧ c ≤ 57 then c - 48 + 52
  else if c = 43 then 62
  else 63

/-- Standard base64 encoding of a byte list, as ASCII codes. -/
def b64Encode : Bytes → List Nat
  | [] => []
  | [a] => [b64Char (a / 4), b64Char (a % 4 * 16), 61, 61]
  | [a, b] => [b64Char (a / 4), b64Char (a % 4 * 16 + b / 16),
               b64Char (b % 16 * 4), 61]
  | a :: b :: c :: rest =>
      b64Char (a / 4) :: b64Char (a % 4 * 16 + b / 16) ::
      b64Char (b % 16 * 4 + c / 64) :: b64Char (c % 64) :: b64Encode rest

/-- Base64 decoding of the ASCII codes produced by `b64Encode`. -/
def b64Decode : List Nat → Bytes
  | c1 :: c2 :: c3 :: c4 :: rest =>
      if c3 = 61 then
        [b64Index c1 * 4 + b64Index c2 / 16]
      else if c4 = 61 then
        [b64Index c1 * 4 + b64Index c2 / 16,
         b64Index c2 % 16 * 16 + b64Index c3 / 4]
      else
        (b64Index c1 * 4 + b64Index c2 / 16) ::
        (b64Index c2 % 16 * 16 + b64Index c3 / 4) ::
        (b64Index c3 % 4 * 64 + b64Index c4) :: b64Decode rest
  | _ => []

theorem b64Index_b64Char : ∀ n < 64, b64Index (b64Char n) = n := by decide

theorem b64Char_ne_61 : ∀ n < 64, b64Char n ≠ 61 := by decide

/-- Base64 round-trip: decoding the encoding of any byte list recovers it. -/
theorem b64_roundtrip : ∀ l : Bytes, (∀ b ∈ l, b < 256) →
    b64Decode (b64Encode l) = l
  | [], _ => rfl
  | [a], h => by
      have ha : a < 256 := h a (by simp)
      have h1 : a / 4 < 64 := by omega
      have h2 : a % 4 * 16 < 64 := by omega
      simp only [b64Encode, b64Decode, eq_self_iff_true, ite_true,
        b64Index_b64Char _ h1, b64Index_b64Char _ h2,
        List.cons.injEq, and_true]
      omega
  | [a, b], h => by
      have ha : a < 256 := h a (by simp)
      have hb : b < 256 := h b (by simp)
      have h1 : a / 4 < 64 := by omega
      have h2 : a % 4 * 16 + b / 16 < 64 := by omega
      have h3 : b % 16 * 4 < 64 := by omega
      simp only [b64Encode, b64Decode, b64Char_ne_61 _ h3,
        eq_self_iff_true, ite_true, ite_false,
        b64Index_b64Char _ h1, b64Index_b64Char _ h2, b64Index_b64Char _ h3,
        List.cons.injEq, and_true]
      omega
  | a :: b :: c :: rest, h => by
      have ha : a < 256 := h a (by simp)
      have hb : b < 256 := h b (by simp)
      have hc : c < 256 := h c (by simp)
      have h1 : a / 4 < 64 := by omega
      have h2 : a % 4 * 16 + b / 16 < 64 := by omega
      have h3 : b % 16 * 4 + c / 64 < 64 := by omega
      have h4 : c % 64 < 64 := by omega
      have ih := b64_roundtrip rest (fun x hx => h x (by simp [hx]))
      simp only [b64Encode, b64Decode, b64Char_ne_61 _ h3, b64Char_ne_61 _ h4,
        eq_self_iff_true, ite_true, ite_false,
        b64Index_b64Char _ h1, b64Index_b64Char _ h2,
        b64Index_b64Char _ h3, b64Index_b64Char _ h4, ih,
        List.cons.injEq, and_true]
      omega

/-! ## UTF-8 decoding (models `bytes.decode` with the utf-8 codec)

Standard UTF-8: continuation bytes are `0x80–0xBF`; overlong encodings,
surrogate code points (`0xD800–0xDFFF`) and code points above `0x10FFFF`
are rejected, exactly as Python's strict utf-8 codec rejects them. -/

/-- Is the byte a UTF-8 continuation byte? -/
def isCont (b : Nat) : Bool := decide (128 ≤ b) && decide (b < 192)

/-- Decode a byte list into the list of its UTF-8 code points
(`none` on any invalid sequence). -/
def utf8DecodeCps : Bytes → Option (List Nat)
  | [] => some []
  | b :: l =>
    if b < 128 then
      (utf8DecodeCps l).map (fun cps => b :: cps)
    else if b < 194 then
      none
    else if b < 224 then
      match l with
      | c1 :: l1 =>
        if isCont c1 then
          (utf8DecodeCps l1).map (fun cps => ((b - 192) * 64 + (c1 - 128)) :: cps)
        else none
      | [] => none
    else if b < 240 then
      match l with
      | c1 :: c2 :: l2 =>
        if isCont c1 && isCont c2 then
          let cp := (b - 224) * 4096 + (c1 - 128) * 64 + (c2 - 128)
          if cp < 2048 then none
          else if 55296 ≤ cp ∧ cp < 57344 then none
          else (utf8DecodeCps l2).map (fun cps => cp :: cps)
        else none
      | _ => none
    else if b < 245 then
      match l with
      | c1 :: c2 :: c3 :: l3 =>
        if isCont c1 && isCont c2 && isCont c3 then
          let cp := (b - 240) * 262144 + (c1 - 128) * 4096 +
                    (c2 - 128) * 64 + (c3 - 128)
          if cp < 65536 then none
          else if 1114111 < cp then none
          else (utf8DecodeCps l3).map (fun cps => cp :: cps)
        else none
      | _ => none
    else none

/-- Decode a byte list as a UTF-8 string, as `bytes.decode` does. -/
def utf8Decode (l : Bytes) : Option String :=
  (utf8DecodeCps l).map (fun cps => String.mk (cps.map Char.ofNat))

/-- Does `needle` occur as a contiguous run inside `haystack`? -/
def listContains (needle : List Char) : List Char → Bool
  | [] => needle.isEmpty
  | c :: rest => needle.isPrefixOf (c :: rest) || listContains needle rest

/-- Python substring containment (`needle in haystack` on `str`). -/
def strContains (haystack needle : String) : Bool :=
  listContains needle.toList haystack.toList

/-- Python `s.startswith(pre)`. -/
def strStartsWith (s pre : String) : Bool :=
  pre.toList.isPrefixOf s.toList

/-- ASCII byte list of a string (helper for concrete test inputs). -/
def asciiBytes (s : String) : Bytes := s.toList.map Char.toNat

/-! ## Response classification (`process_response`, lines 206–269) -/

/-- The classified payload dictionaries built by `process_response`:
`{'type':'text','data':s}`, `{'type':'binary','format':f,'data':b64}`
(the base64 payload kept as the ASCII codes of its characters) or
`{'type':'json','data':v}`. -/
inductive ProcessedData where
  | text (s : String)
  | binary (format : String) (b64 : List Nat)
  | json (v : JsonVal)
deriving BEq

/-- Does the byte fall in the control-character sniff set of the regex
`[\x00-\x08\x0B\x0C\x0E-\x1F\x7F]` (line 233)? -/
def isSniffControl (b : Nat) : Bool :=
  decide (b ≤ 8) || decide (b = 11) || decide (b = 12) ||
  (decide (14 ≤ b) && decide (b ≤ 31)) || decide (b = 127)

/-- `re.search` of the control-character class over the byte string. -/
def hasControlByte (l : Bytes) : Bool := l.any isSniffControl

/-- `detect_binary_format` (lines 206–223): magic-byte sniffing by
prefix, in source order.  The embedding is only applied to `bytes`
values, so the `text/plain` branch for non-bytes input is omitted. -/
def detect_binary_format (data : Bytes) : String :=
  if [255, 216].isPrefixOf data then "image/jpeg"
  else if [137, 80, 78, 71, 13, 10, 26, 10].isPrefixOf data then "image/png"
  else if [71, 73, 70, 56, 55, 97].isPrefixOf data ||
          [71, 73, 70, 56, 57, 97].isPrefixOf data then "image/gif"
  else if [0, 0, 0, 28, 102, 116, 121, 112].isPrefixOf data then "video/mp4"
  else if [26, 69, 223, 163].isPrefixOf data then "video/webm"
  else if [73, 68, 51].isPrefixOf data || [255, 251].isPrefixOf data ||
          [255, 243].isPrefixOf data then "audio/mpeg"
  else "application/octet-stream"

/-- `process_response` (lines 225–269) on the values the application
passes it: `response_raw` is the `response` field of `make_request`,
i.e. `None` or a byte string (the source's pass-through branch for
`str` input is therefore never taken and is not modelled).  The strict
JSON parse (`json.loads`) is passed in as `jsonParse`; it returns
`none` when parsing fails with `JSONDecodeError`. -/
def process_response (jsonParse : String → Option JsonVal)
    (response_raw : Option Bytes) : ProcessedData :=
  match response_raw with
  | none => ProcessedData.text ""
  | some data =>
    if data = [] then ProcessedData.text ""
    else if hasControlByte data then
      ProcessedData.binary (detect_binary_format data) (b64Encode data)
    else
      match utf8Decode data with
      | none => ProcessedData.binary "application/octet-stream" (b64Encode data)
      | some response_str =>
        match jsonParse response_str with
        | some decoded => ProcessedData.json decoded
        | none => ProcessedData.text response_str

/-! ## Credential cache and refresher (`get_fresh_cookies`, lines 88–130) -/

/-- The hardcoded default cookie string (line 91). -/
def defaultCookieLiteral : String :=
  "user_token=c4e606ec3f66b93e8198a48c8c71e6b8; t_hash_t=4184321d319f63c93cff4c7588764623%3A%3A14b66f534e8c2fa68723668dead845ce%3A%3A1746367568%3A%3Ani; recentplay=81688854; 81688854=95%3A7065"

/-- The process-wide `COOKIES_CACHE` dictionary: the immutable
`default` slot plus the optional `latest` slot. -/
structure CookiesCache where
  dflt : String
  latest : Option String
deriving DecidableEq

/-- The cache as initialised at module load (line 90). -/
def initialCookiesCache : CookiesCache := ⟨defaultCookieLiteral, none⟩

/-- Outcome of `session.get('https://netfree2.cc/home', ...)`: either a
response (status code plus the cookie jar the session accumulated) or a
raised exception, passed in explicitly since the network is external. -/
inductive HomeResult where
  | response (status : Nat) (cookies : List (String × String))
  | exn (msg : String)

/-- `'; '.join([f'{k}={v}' for k, v in cookie_dict.items()])` (line 119). -/
def cookieString (cookies : List (String × String)) : String :=
  String.intercalate "; " (cookies.map (fun kv => kv.1 ++ "=" ++ kv.2))

/-- `get_fresh_cookies` (lines 94–130): returns the cookie string handed
back to the caller together with the updated cache.  The whole body sits
inside `try/except Exception`, so a raised transport exception lands in
the `except` branch; no exception escapes, which the embedding reflects
by returning a plain pair. -/
def get_fresh_cookies (res : HomeResult) (cache : CookiesCache) :
    String × CookiesCache :=
  match res with
  | HomeResult.response status cookies =>
    if status = 200 then
      let s := cookieString cookies
      (s, ⟨cache.dflt, some s⟩)
    else
      (cache.dflt, cache)
  | HomeResult.exn _ => (cache.dflt, cache)

/-! ## Upstream fetcher (`make_request`, lines 132–204) -/

/-- The proxy pool (line 132).  NOTE: the source binds this list to the
name `ROXIES`; no global named `PROXIES` exists in the module. -/
def ROXIES : List String :=
  ["http://40.76.69.94:8080", "http://88.99.209.189:1234",
   "http://67.43.228.251:21621", "http://8.219.97.248:80",
   "http://119.156.195.173:3128", "http://34.102.48.89:8080",
   "http://45.140.143.77:18080", "http://3.110.60.103:80",
   "http://200.174.198.86:8888", "http://34.143.143.61:7777",
   "http://72.10.160.173:11025", "http://91.243.226.71:8080",
   "http://44.220.205.79:8080"]

/-- The module's global namespace restricted to proxy-list-valued
bindings: only `ROXIES` is ever defined (line 132). -/
def proxyGlobals : List (String × List String) := [("ROXIES", ROXIES)]

/-- `get_random_proxy` (lines 148–149): evaluates
`random.choice(PROXIES)`.  Python resolves the global name `PROXIES` at
call time; the module only binds `ROXIES`, so the lookup fails and the
call raises `NameError`.  The randomness of `random.choice` is passed in
as `pick`. -/
def get_random_proxy (pick : List String → String) : Except PyExn String :=
  match proxyGlobals.lookup "PROXIES" with
  | some pool => Except.ok (pick pool)
  | none => Except.error (PyExn.nameError "PROXIES")

/-- Result of `make_request`: the dict
`{'http_code': ..., 'response': ..., 'error': ...}`. -/
structure FetchOutcome where
  http_code : Nat
  response : Option Bytes
  error : Option String
deriving DecidableEq

/-- Outcome of `requests.get(url, ...)` inside `make_request`'s `try`
block, passed in explicitly since the network is external. -/
inductive NetResult where
  | success (status : Nat) (body : Bytes)
  | timeout
  | connectionError (msg : String)
  | otherException (msg : String)

/-- The request headers built by `make_request` (lines 155–171): the
static browser-mimicking dict, plus — only when `use_fresh_cookies` is
false — a `Cookie` entry holding the hardcoded default cookie string.
When `use_fresh_cookies` is true no `Cookie` header is set at all. -/
def make_request_headers (use_fresh_cookies : Bool) : List (String × String) :=
  [("Accept", "*/*"),
   ("Accept-Encoding", "gzip, deflate, br"),
   ("Accept-Language", "en-US,en;q=0.5"),
   ("Connection", "keep-alive"),
   ("DNT", "1"),
   ("Host", "netfree2.cc"),
   ("Referer", "https://netfree2.cc/home"),
   ("Sec-Fetch-Dest", "empty"),
   ("Sec-Fetch-Mode", "cors"),
   ("Sec-Fetch-Site", "same-origin"),
   ("TE", "trailers"),
   ("User-Agent", "Mozilla/5.0 (Windows NT 10.0; Win64; x64; rv:124.0) Gecko/20100101 Firefox/124.0")] ++
  (if use_fresh_cookies then [] else [("Cookie", defaultCookieLiteral)])

/-- `make_request` (lines 151–204).  The proxy is chosen (line 173)
before the `try` block (line 176), so an exception raised there
propagates to the caller; inside the `try` block the `requests.get`
outcome is mapped to the `FetchOutcome` dict. -/
def make_request (pick : List String → String) (net : NetResult)
    (_use_fresh_cookies : Bool) : Except PyExn FetchOutcome :=
  match get_random_proxy pick with
  | Except.error e => Except.error e
  | Except.ok _proxy =>
    match net with
    | NetResult.success status body => Except.ok ⟨status, some body, none⟩
    | NetResult.timeout => Except.ok ⟨408, none, some "Request timed out"⟩
    | NetResult.connectionError msg =>
        Except.ok ⟨503, none, some ("Connection error: " ++ msg)⟩
    | NetResult.otherException msg => Except.ok ⟨0, none, some msg⟩

/-! ## Playlist orchestration (`get_playlist`, lines 287–337) -/

/-- Python truthiness of the `error_message` variable (`None` or a
string): `None` and `''` are falsy, every other string is truthy. -/
def truthyOptStr : Option String → Bool
  | none => false
  | some s => !s.isEmpty

/-- The `status` + `data` envelope assembled at lines 327–334. -/
structure Envelope where
  code : Nat
  success : Bool
  error : Option String
  data : ProcessedData
deriving BEq

/-- The Json singleton-array reduction (lines 315–317): if the
classified payload is `json` holding a non-empty list, replace the list
by its first element. -/
def reduceJsonArray : ProcessedData → ProcessedData
  | ProcessedData.json (JsonVal.arr (x :: _)) => ProcessedData.json x
  | p => p

/-- The failure reclassifier (lines 319–325): on transport status 200
with a `text` payload, an embedded "404 Not Found" marker overrides the
status to 404 and an embedded "Access denied" marker to 403, each with
its fixed error message; every other payload is left unchanged. -/
def reclassifyFailure (http_code : Nat) (error_message : Option String)
    (p : ProcessedData) : Nat × Option String :=
  if http_code = 200 then
    match p with
    | ProcessedData.text s =>
      if strContains s "404 Not Found" then
        (404, some "Resource not found on netfree2.cc")
      else if strContains s "Access denied" then
        (403, some "Access denied - authentication required")
      else (http_code, error_message)
    | _ => (http_code, error_message)
  else (http_code, error_message)

/-- Classification (line 314), array reduction (315–317) and failure
reclassification (319–325) applied to one fetch outcome: the payload
plus the final `(http_code, error_message)` pair. -/
def classifyOutcome (jsonParse : String → Option JsonVal)
    (o : FetchOutcome) : ProcessedData × Nat × Option String :=
  let processed := reduceJsonArray (process_response jsonParse o.response)
  (processed, reclassifyFailure o.http_code o.error processed)

/-- The envelope built from one fetch outcome (lines 314–334):
`success = http_code >= 200 and http_code < 300 and not error_message`,
computed from the reclassified status and message. -/
def assembleEnvelope (jsonParse : String → Option JsonVal)
    (o : FetchOutcome) : Envelope :=
  let c := classifyOutcome jsonParse o
  ⟨c.2.1,
   decide (200 ≤ c.2.1) && decide (c.2.1 < 300) && !truthyOptStr c.2.2,
   c.2.2, c.1⟩

/-- What one `/playlist/` request did: the returned envelope plus how
many `make_request` and `get_fresh_cookies` calls ran. -/
structure PlaylistTrace where
  envelope : Envelope
  fetchCalls : Nat
  refreshCalls : Nat
deriving BEq

/-- `get_playlist` (lines 287–337) with its two I/O collaborators
stubbed: `fetch1` and `fetch2` are the outcomes the first and (when it
happens) second `make_request` call would produce, and `hasLatest` is
whether `'latest' in COOKIES_CACHE` held on entry (line 297).  The
retry decision (line 306) reads the raw `http_code`/`error_message` of
the first fetch — classification and reclassification (lines 314–325)
happen only afterwards, once, on whichever outcome stands. -/
def get_playlist (fetch1 fetch2 : FetchOutcome)
    (jsonParse : String → Option JsonVal)
    (fresh_cookies : Bool) (hasLatest : Bool) : PlaylistTrace :=
  let warmRefreshes := if fresh_cookies && !hasLatest then 1 else 0
  let retry := (decide (400 ≤ fetch1.http_code) || truthyOptStr fetch1.error)
               && fresh_cookies
  let result := if retry then fetch2 else fetch1
  ⟨assembleEnvelope jsonParse result,
   if retry then 2 else 1,
   warmRefreshes + (if retry then 1 else 0)⟩

/-! ## HLS source extraction (`get_hls_url`, lines 358–390) -/

/-- One element of the `hls_urls` list comprehension (lines 382–387):
the dict `{'quality': ..., 'url': ..., 'type': ..., 'default': ...}`.
`quality`, `typ` and `isDefault` keep the raw JSON values that
`source.get` returns. -/
structure HLSUrlItem where
  quality : JsonVal
  url : String
  typ : JsonVal
  isDefault : JsonVal
deriving BEq

/-- Python `dict.get(k, dflt)` over a parsed JSON object. -/
def dictGet (fields : List (String × JsonVal)) (k : String)
    (dflt : JsonVal) : JsonVal :=
  match fields.lookup k with
  | some v => v
  | none => dflt

/-- Python truthiness of a parsed JSON value (`if not sources`). -/
def pyFalsy : JsonVal → Bool
  | JsonVal.null => true
  | JsonVal.bool b => !b
  | JsonVal.num n => n == 0
  | JsonVal.str s => s.isEmpty
  | JsonVal.arr l => l.isEmpty
  | JsonVal.obj l => l.isEmpty

/-- One comprehension element (lines 383–386): `label`/`type`/`default`
fall back to their defaults via `.get`; `source['file']` raises
`KeyError` when the key is missing; `.startswith` on a non-string file
value, or `.get` on a non-dict entry, raises `AttributeError`. -/
def sourceToHls (source : JsonVal) : Except PyExn HLSUrlItem :=
  match source with
  | JsonVal.obj fields =>
    match fields.lookup "file" with
    | some (JsonVal.str f) =>
        Except.ok ⟨dictGet fields "label" (JsonVal.str "Unknown"),
                   if strStartsWith f "http" then f
                   else "https://netfree2.cc" ++ f,
                   dictGet fields "type" (JsonVal.str "Unknown"),
                   dictGet fields "default" (JsonVal.bool false)⟩
    | some _ => Except.error PyExn.attributeError
    | none => Except.error (PyExn.keyError "file")
  | _ => Except.error PyExn.attributeError

/-- The classified payload as the literal dict `process_response`
builds (the shape `get_hls_url` traverses); the binary payload's
base64 codes rendered back as the string they are. -/
def processedDict : ProcessedData → List (String × JsonVal)
  | ProcessedData.text s =>
      [("type", JsonVal.str "text"), ("data", JsonVal.str s)]
  | ProcessedData.binary fmt b64 =>
      [("type", JsonVal.str "binary"), ("format", JsonVal.str fmt),
       ("data", JsonVal.str (String.mk (b64.map Char.ofNat)))]
  | ProcessedData.json v =>
      [("type", JsonVal.str "json"), ("data", v)]

/-- The `sources` lookup of lines 369–375: when the dict's `type` is
`'json'` and its `data` is a dict, read `data['sources']`; otherwise
fall through to the `elif 'sources' in data` branch and read the key
directly off the envelope dict. -/
def locateSources (d : List (String × JsonVal)) : Option JsonVal :=
  match d.lookup "data" with
  | some (JsonVal.obj fields) =>
      match d.lookup "type" with
      | some (JsonVal.str tag) =>
          if tag == "json" then fields.lookup "sources"
          else d.lookup "sources"
      | _ => d.lookup "sources"
  | _ => d.lookup "sources"

/-- The extraction body of `get_hls_url` (lines 368–390) applied to the
envelope's `data` dict.  A missing or falsy `sources` value raises the
handled `HTTPException(404, ...)`; a truthy list runs the comprehension
(first exception propagates); a truthy non-list value raises on
iteration or attribute access — the claims only exercise the list and
absent cases, so that path is summarised as a `TypeError`. -/
def extract_hls (d : List (String × JsonVal)) :
    Except PyExn (List HLSUrlItem) :=
  match locateSources d with
  | none => Except.error (PyExn.httpException 404 "HLS URL not found in response")
  | some v =>
    if pyFalsy v then
      Except.error (PyExn.httpException 404 "HLS URL not found in response")
    else
      match v with
      | JsonVal.arr items => items.mapM sourceToHls
      | _ => Except.error PyExn.typeError

/-- `/hls/` extraction over a classified payload. -/
def get_hls_url (p : ProcessedData) : Except PyExn (List HLSUrlItem) :=
  extract_hls (processedDict p)

/-! ## Auxiliary concrete values used by the claim statements -/

/-- A JSON parse stub that fails on every input, standing in for
`json.loads` on non-JSON text. -/
def jpNone : String → Option JsonVal := fun _ => none

/-- A JSON parse stub that parses exactly the document `[1]`. -/
def jsonParseStub : String → Option JsonVal :=
  fun s => if s = "[1]" then some (JsonVal.arr [JsonVal.num 1]) else none

/-- A first-fetch outcome whose transport status is 200 but whose text
body carries the upstream "404 Not Found" marker. -/
def softFailOutcome : FetchOutcome :=
  ⟨200, some (asciiBytes "404 Not Found"), none⟩

/-- A bland successful second-fetch outcome. -/
def okOutcome : FetchOutcome := ⟨200, some (asciiBytes "ok"), none⟩

/-- A first-fetch outcome for a connection failure (as `make_request`
would map it, were it reachable). -/
def connFailOutcome : FetchOutcome :=
  ⟨503, none, some "Connection error: refused"⟩

/-- The specification's per-entry streaming-source mapping, stated in
the spec's own words: `label` defaults to "Unknown" when missing, the
`file` value is required and used as-is when it begins with `http` and
otherwise prefixed with the upstream origin, `type` defaults to
"Unknown", and `isDefault` defaults to false.  `none` when the entry is
not an object holding a string `file`. -/
def streamingSourceSpec (source : JsonVal) : Option HLSUrlItem :=
  match source with
  | JsonVal.obj fields =>
    match fields.lookup "file" with
    | some (JsonVal.str f) =>
        some ⟨dictGet fields "label" (JsonVal.str "Unknown"),
              if strStartsWith f "http" then f
              else "https://netfree2.cc" ++ f,
              dictGet fields "type" (JsonVal.str "Unknown"),
              dictGet fields "default" (JsonVal.bool false)⟩
    | _ => none
  | _ => none

/-- The claim's condition for the `/hls/` not-found path: the payload
holds no `sources` array — neither directly nor nested under the
`data` key of the envelope dict — or the array is empty. -/
def noSourcesListed : ProcessedData → Bool
  | ProcessedData.json (JsonVal.obj fields) =>
      match fields.lookup "sources" with
      | none => true
      | some (JsonVal.arr l) => l.isEmpty
      | some _ => false
  | _ => true

end NetFree

namespace NetFree

/-! ## Claims -/

/-- C1: the claim reads "For every FetchRequest, the Upstream Fetcher
(make_request) returns a FetchOutcome and never raises to its caller
[...]".  The code violates it: `get_random_proxy` evaluates
`random.choice(PROXIES)` (line 149) but the module binds the proxy pool
as `ROXIES` (line 132), and the call sits before the `try` block of
`make_request` (line 173 vs 176), so every `make_request` call raises
`NameError` and no `FetchOutcome` is ever produced. -/
theorem make_request_always_raises_nameError :
    ∀ (pick : List String → String) (net : NetResult) (ufc : Bool),
      make_request pick net ufc = Except.error (PyExn.nameError "PROXIES") := by
  intro pick net ufc
  rfl

/-- C3 counterexample: with `useFreshCredentials` true the playlist
request carries no `Cookie` header at all — the warmed `latest`
credential is never attached (lines 170–171 only set a `Cookie` when
`use_fresh_cookies` is false), refuting "the request carries the
previously warmed latest credential". -/
theorem fresh_mode_sends_no_cookie_header :
    (make_request_headers true).lookup "Cookie" = none := by
  rfl

/-- C3 amended: when `useFreshCredentials` is false the fetch attaches a
`Cookie` header whose value equals the credential cache's default slot;
when it is true, no `Cookie` header is attached at all (the warmed
`latest` credential is never read by the fetcher). -/
theorem cookie_header_per_mode :
    (make_request_headers false).lookup "Cookie" =
      some initialCookiesCache.dflt ∧
    (make_request_headers true).lookup "Cookie" = none := by
  exact ⟨rfl, rfl⟩

/-- C9: `get_fresh_cookies` never raises (it is a total function into a
plain pair): on an HTTP 200 homepage response it serialises the session
cookies as `k=v; k=v`, stores the string into the `latest` slot and
returns it; on any non-200 status or transport failure it leaves the
cache unchanged — in particular the `latest` slot — and returns the
`default` slot's string. -/
theorem get_fresh_cookies_spec :
    (∀ cookies cache,
      get_fresh_cookies (HomeResult.response 200 cookies) cache =
        (cookieString cookies, ⟨cache.dflt, some (cookieString cookies)⟩)) ∧
    (∀ status cookies cache, status ≠ 200 →
      get_fresh_cookies (HomeResult.response status cookies) cache =
        (cache.dflt, cache)) ∧
    (∀ msg cache,
      get_fresh_cookies (HomeResult.exn msg) cache = (cache.dflt, cache)) := by
  refine ⟨fun cookies cache => rfl, fun status cookies cache h => ?_, fun msg cache => rfl⟩
  simp [get_fresh_cookies, h]

/-- C9 witness: the three branches at concrete inputs. -/
theorem get_fresh_cookies_spec_witness :
    get_fresh_cookies (HomeResult.response 200 [("a", "b"), ("c", "d")])
        initialCookiesCache =
      ("a=b; c=d", ⟨initialCookiesCache.dflt, some "a=b; c=d"⟩) ∧
    (503 ≠ 200) ∧
    get_fresh_cookies (HomeResult.response 503 []) initialCookiesCache =
      (initialCookiesCache.dflt, initialCookiesCache) := by
  refine ⟨(get_fresh_cookies_spec.1 [("a", "b"), ("c", "d")] initialCookiesCache).trans (by rfl),
          by decide,
          get_fresh_cookies_spec.2.1 503 [] initialCookiesCache (by decide)⟩

/-- C10: a non-empty `sources` array whose entry lacks the `file` key
makes the `/hls/` extraction raise `KeyError` (line 384 indexes
`source['file']` unconditionally), which is not the handled 404
not-found error — the no-crash guarantee covers only an absent or
empty `sources` array. -/
theorem hls_missing_file_raises_keyError :
    get_hls_url (ProcessedData.json (JsonVal.obj
        [("sources", JsonVal.arr [JsonVal.obj [("label", JsonVal.str "HD")]])])) =
      Except.error (PyExn.keyError "file") ∧
    PyExn.keyError "file" ≠
      PyExn.httpException 404 "HLS URL not found in response" := by
  exact ⟨rfl, by decide⟩

/-- C8: whenever the classified payload lists no usable `sources` —
the key is absent both directly and under the payload's `data` slot, or
holds an empty array — `/hls/` extraction yields the handled
`HTTPException(404, "HLS URL not found in response")` rather than an
unhandled exception. -/
theorem hls_no_sources_yields_404 (p : ProcessedData)
    (h : noSourcesListed p = true) :
    get_hls_url p =
      Except.error (PyExn.httpException 404 "HLS URL not found in response") := by
  match p with
  | ProcessedData.text s => rfl
  | ProcessedData.binary fmt b => rfl
  | ProcessedData.json v =>
    match v with
    | JsonVal.null => rfl
    | JsonVal.bool b => rfl
    | JsonVal.num n => rfl
    | JsonVal.str s => rfl
    | JsonVal.arr l => rfl
    | JsonVal.obj fields =>
      simp only [noSourcesListed] at h
      have hloc : locateSources (processedDict
          (ProcessedData.json (JsonVal.obj fields))) = fields.lookup "sources" := rfl
      simp only [get_hls_url, extract_hls, hloc]
      cases hs : fields.lookup "sources" with
      | none => rfl
      | some v =>
        rw [hs] at h
        cases v with
        | arr l =>
          cases l with
          | nil => rfl
          | cons x xs => simp at h
        | null => exact Bool.noConfusion h
        | bool b => exact Bool.noConfusion h
        | num n => exact Bool.noConfusion h
        | str s => exact Bool.noConfusion h
        | obj l => exact Bool.noConfusion h

/-- C8 witness: a JSON payload without a `sources` key. -/
theorem hls_no_sources_yields_404_witness :
    noSourcesListed (ProcessedData.json (JsonVal.obj [("id", JsonVal.num 1)])) = true ∧
    get_hls_url (ProcessedData.json (JsonVal.obj [("id", JsonVal.num 1)])) =
      Except.error (PyExn.httpException 404 "HLS URL not found in response") := by
  exact ⟨rfl, hls_no_sources_yields_404 _ rfl⟩

/-- C5: classification of bodies without sniff-set control characters:
an absent or empty body is `text ""`; a valid-UTF-8 body that the
strict JSON parse accepts is `json` holding exactly the parsed value;
a valid-UTF-8 body the parse rejects is `text` holding the decoded
string; a body that fails UTF-8 decoding is
`binary application/octet-stream`. -/
theorem process_response_text_json_cases :
    (∀ jp, process_response jp none = ProcessedData.text "") ∧
    (∀ jp, process_response jp (some []) = ProcessedData.text "") ∧
    (∀ jp (data : Bytes) (s : String) (v : JsonVal), data ≠ [] →
      hasControlByte data = false → utf8Decode data = some s →
      jp s = some v →
      process_response jp (some data) = ProcessedData.json v) ∧
    (∀ jp (data : Bytes) (s : String), data ≠ [] →
      hasControlByte data = false → utf8Decode data = some s →
      jp s = none →
      process_response jp (some data) = ProcessedData.text s) ∧
    (∀ jp (data : Bytes), data ≠ [] →
      hasControlByte data = false → utf8Decode data = none →
      process_response jp (some data) =
        ProcessedData.binary "application/octet-stream" (b64Encode data)) := by
  refine ⟨fun jp => rfl, fun jp => rfl, ?_, ?_, ?_⟩
  · intro jp data s v hne hc hdec hjp
    simp [process_response, hne, hc, hdec, hjp]
  · intro jp data s hne hc hdec hjp
    simp [process_response, hne, hc, hdec, hjp]
  · intro jp data hne hc hdec
    simp [process_response, hne, hc, hdec]

/-- C5 witness: the empty, JSON, plain-text and undecodable cases at
concrete inputs (`0xC5` is a lone UTF-8 lead byte outside the control
sniff set). -/
theorem process_response_text_json_cases_witness :
    process_response jsonParseStub none = ProcessedData.text "" ∧
    process_response jsonParseStub (some []) = ProcessedData.text "" ∧
    (asciiBytes "[1]" ≠ [] ∧ hasControlByte (asciiBytes "[1]") = false ∧
     utf8Decode (asciiBytes "[1]") = some "[1]" ∧
     jsonParseStub "[1]" = some (JsonVal.arr [JsonVal.num 1]) ∧
     process_response jsonParseStub (some (asciiBytes "[1]")) =
       ProcessedData.json (JsonVal.arr [JsonVal.num 1])) ∧
    (utf8Decode (asciiBytes "hi") = some "hi" ∧ jsonParseStub "hi" = none ∧
     process_response jsonParseStub (some (asciiBytes "hi")) =
       ProcessedData.text "hi") ∧
    (hasControlByte [197] = false ∧ utf8Decode [197] = none ∧
     process_response jsonParseStub (some [197]) =
       ProcessedData.binary "application/octet-stream" (b64Encode [197])) := by
  refine ⟨process_response_text_json_cases.1 jsonParseStub,
          process_response_text_json_cases.2.1 jsonParseStub,
          ⟨by decide, rfl, rfl, rfl,
           process_response_text_json_cases.2.2.1 jsonParseStub _ _ _
             (by decide) rfl rfl rfl⟩,
          ⟨rfl, rfl,
           process_response_text_json_cases.2.2.2.1 jsonParseStub _ _
             (by decide) rfl rfl rfl⟩,
          ⟨rfl, rfl,
           process_response_text_json_cases.2.2.2.2 jsonParseStub _
             (by decide) rfl rfl⟩⟩

/-- C4: any byte sequence holding a sniff-set control character is
classified as `binary`, its base64 `data` field decodes back to the
original bytes exactly, and its `format` follows the magic-prefix
cascade (JPEG, PNG, GIF, MP4 ftyp, WebM, MP3, else
`application/octet-stream`). -/
theorem classify_binary_roundtrip :
    ∀ (jp : String → Option JsonVal) (data : Bytes),
      (∀ b ∈ data, b < 256) → hasControlByte data = true →
      process_response jp (some data) =
        ProcessedData.binary (detect_binary_format data) (b64Encode data) ∧
      b64Decode (b64Encode data) = data ∧
      ([255, 216].isPrefixOf data = true →
        detect_binary_format data = "image/jpeg") ∧
      ([255, 216].isPrefixOf data = false →
       [137, 80, 78, 71, 13, 10, 26, 10].isPrefixOf data = true →
        detect_binary_format data = "image/png") ∧
      ([255, 216].isPrefixOf data = false →
       [137, 80, 78, 71, 13, 10, 26, 10].isPrefixOf data = false →
       ([71, 73, 70, 56, 55, 97].isPrefixOf data ||
        [71, 73, 70, 56, 57, 97].isPrefixOf data) = true →
        detect_binary_format data = "image/gif") ∧
      ([255, 216].isPrefixOf data = false →
       [137, 80, 78, 71, 13, 10, 26, 10].isPrefixOf data = false →
       ([71, 73, 70, 56, 55, 97].isPrefixOf data ||
        [71, 73, 70, 56, 57, 97].isPrefixOf data) = false →
       [0, 0, 0, 28, 102, 116, 121, 112].isPrefixOf data = true →
        detect_binary_format data = "video/mp4") ∧
      ([255, 216].isPrefixOf data = false →
       [137, 80, 78, 71, 13, 10, 26, 10].isPrefixOf data = false →
       ([71, 73, 70, 56, 55, 97].isPrefixOf data ||
        [71, 73, 70, 56, 57, 97].isPrefixOf data) = false →
       [0, 0, 0, 28, 102, 116, 121, 112].isPrefixOf data = false →
       [26, 69, 223, 163].isPrefixOf data = true →
        detect_binary_format data = "video/webm") ∧
      ([255, 216].isPrefixOf data = false →
       [137, 80, 78, 71, 13, 10, 26, 10].isPrefixOf data = false →
       ([71, 73, 70, 56, 55, 97].isPrefixOf data ||
        [71, 73, 70, 56, 57, 97].isPrefixOf data) = false →
       [0, 0, 0, 28, 102, 116, 121, 112].isPrefixOf data = false →
       [26, 69, 223, 163].isPrefixOf data = false →
       ([73, 68, 51].isPrefixOf data || [255, 251].isPrefixOf data ||
        [255, 243].isPrefixOf data) = true →
        detect_binary_format data = "audio/mpeg") ∧
      ([255, 216].isPrefixOf data = false →
       [137, 80, 78, 71, 13, 10, 26, 10].isPrefixOf data = false →
       ([71, 73, 70, 56, 55, 97].isPrefixOf data ||
        [71, 73, 70, 56, 57, 97].isPrefixOf data) = false →
       [0, 0, 0, 28, 102, 116, 121, 112].isPrefixOf data = false →
       [26, 69, 223, 163].isPrefixOf data = false →
       ([73, 68, 51].isPrefixOf data || [255, 251].isPrefixOf data ||
        [255, 243].isPrefixOf data) = false →
        detect_binary_format data = "application/octet-stream") := by
  intro jp data hb hc
  have hne : data ≠ [] := by
    intro he
    subst he
    exact Bool.noConfusion hc
  refine ⟨?_, b64_roundtrip data hb, ?_, ?_, ?_, ?_, ?_, ?_, ?_⟩
  · simp [process_response, hne, hc]
  · intro h1
    simp [detect_binary_format, h1]
  · intro h1 h2
    simp [detect_binary_format, h1, h2]
  · intro h1 h2 h3
    simp [detect_binary_format, h1, h2, h3]
  · intro h1 h2 h3 h4
    simp [detect_binary_format, h1, h2, h3, h4]
  · intro h1 h2 h3 h4 h5
    simp [detect_binary_format, h1, h2, h3, h4, h5]
  · intro h1 h2 h3 h4 h5 h6
    simp [detect_binary_format, h1, h2, h3, h4, h5, h6]
  · intro h1 h2 h3 h4 h5 h6
    simp [detect_binary_format, h1, h2, h3, h4, h5, h6]

/-- C4 witness: the two control bytes `00 01` match no magic prefix and
classify as unmatched binary; the base64 round-trip holds. -/
theorem classify_binary_roundtrip_witness :
    (∀ b ∈ ([0, 1] : Bytes), b < 256) ∧ hasControlByte [0, 1] = true ∧
    process_response jpNone (some [0, 1]) =
      ProcessedData.binary (detect_binary_format [0, 1]) (b64Encode [0, 1]) ∧
    b64Decode (b64Encode [0, 1]) = [0, 1] ∧
    detect_binary_format [0, 1] = "application/octet-stream" := by
  have h := classify_binary_roundtrip jpNone [0, 1] (by decide) (by decide)
  exact ⟨by decide, by decide, h.1, h.2.1, rfl⟩

/-- The reclassifier leaves non-text payloads untouched. -/
theorem reclassify_nontext (code : Nat) (err : Option String)
    (p : ProcessedData) (hp : ∀ s, p ≠ ProcessedData.text s) :
    reclassifyFailure code err p = (code, err) := by
  unfold reclassifyFailure
  split
  · match p with
    | ProcessedData.text s => exact absurd rfl (hp s)
    | ProcessedData.binary f b => rfl
    | ProcessedData.json v => rfl
  · rfl

/-- C6 counterexample: the code's "Access denied" override message is
"Access denied - authentication required" (hyphen-minus, line 325),
not the claimed "Access denied — authentication required" (em dash). -/
theorem access_denied_message_mismatch :
    assembleEnvelope jpNone ⟨200, some (asciiBytes "Access denied"), none⟩ =
      ⟨403, false, some "Access denied - authentication required",
       ProcessedData.text "Access denied"⟩ ∧
    ("Access denied - authentication required" : String) ≠
      "Access denied — authentication required" := by
  exact ⟨rfl, by decide⟩

/-- C6 amended: on transport status 200 with a Text payload, a "404 Not
Found" substring remaps the envelope to 404 / "Resource not found on
netfree2.cc" with success=false, else an "Access denied" substring
remaps it to 403 / "Access denied - authentication required" (ASCII
hyphen) with success=false; payloads of other variants are never
remapped; and success holds iff the final status is in [200,300) with
no (truthy) error message. -/
theorem reclassify_envelope_spec :
    (∀ jp (o : FetchOutcome) (s : String),
      o.http_code = 200 →
      reduceJsonArray (process_response jp o.response) = ProcessedData.text s →
      ((strContains s "404 Not Found" = true →
         assembleEnvelope jp o =
           ⟨404, false, some "Resource not found on netfree2.cc",
            ProcessedData.text s⟩) ∧
       (strContains s "404 Not Found" = false →
        strContains s "Access denied" = true →
         assembleEnvelope jp o =
           ⟨403, false, some "Access denied - authentication required",
            ProcessedData.text s⟩))) ∧
    (∀ jp (o : FetchOutcome),
      (∀ s, reduceJsonArray (process_response jp o.response) ≠ ProcessedData.text s) →
      (assembleEnvelope jp o).code = o.http_code ∧
      (assembleEnvelope jp o).error = o.error) ∧
    (∀ jp (o : FetchOutcome),
      (assembleEnvelope jp o).success = true ↔
        (200 ≤ (assembleEnvelope jp o).code ∧
         (assembleEnvelope jp o).code < 300 ∧
         truthyOptStr (assembleEnvelope jp o).error = false)) := by
  refine ⟨?_, ?_, ?_⟩
  · intro jp o s h200 hp
    constructor
    · intro h404
      simp [assembleEnvelope, classifyOutcome, hp, h200, reclassifyFailure,
        h404, truthyOptStr]
    · intro h404 hacc
      simp [assembleEnvelope, classifyOutcome, hp, h200, reclassifyFailure,
        h404, hacc, truthyOptStr]
  · intro jp o hns
    have := reclassify_nontext o.http_code o.error
      (reduceJsonArray (process_response jp o.response)) hns
    simp [assembleEnvelope, classifyOutcome, this]
  · intro jp o
    simp [assembleEnvelope, Bool.and_eq_true, decide_eq_true_eq,
      Bool.not_eq_true', and_assoc]

/-- C6 witness: the "404 Not Found" branch at a concrete outcome. -/
theorem reclassify_envelope_spec_witness :
    softFailOutcome.http_code = 200 ∧
    reduceJsonArray (process_response jpNone softFailOutcome.response) =
      ProcessedData.text "404 Not Found" ∧
    strContains "404 Not Found" "404 Not Found" = true ∧
    assembleEnvelope jpNone softFailOutcome =
      ⟨404, false, some "Resource not found on netfree2.cc",
       ProcessedData.text "404 Not Found"⟩ := by
  exact ⟨rfl, rfl, rfl,
    (reclassify_envelope_spec.1 jpNone softFailOutcome "404 Not Found"
      rfl rfl).1 rfl⟩

/-- On an entry the spec mapping accepts, the code's comprehension
element agrees with it. -/
theorem sourceToHls_of_spec (s : JsonVal) (it : HLSUrlItem)
    (h : streamingSourceSpec s = some it) : sourceToHls s = Except.ok it := by
  match s with
  | JsonVal.null => exact Option.noConfusion h
  | JsonVal.bool b => exact Option.noConfusion h
  | JsonVal.num n => exact Option.noConfusion h
  | JsonVal.str t => exact Option.noConfusion h
  | JsonVal.arr l => exact Option.noConfusion h
  | JsonVal.obj fields =>
    simp only [streamingSourceSpec] at h
    simp only [sourceToHls]
    cases hf : fields.lookup "file" with
    | none => rw [hf] at h; exact Option.noConfusion h
    | some v =>
      rw [hf] at h
      cases v with
      | str f => rw [Option.some.injEq] at h; exact congrArg Except.ok h
      | null => exact Option.noConfusion h
      | bool b => exact Option.noConfusion h
      | num n => exact Option.noConfusion h
      | arr l => exact Option.noConfusion h
      | obj l => exact Option.noConfusion h

/-- The comprehension over a list of acceptable entries is the in-order
spec mapping of the list. -/
theorem mapM_sourceToHls (srcs : List JsonVal)
    (h : ∀ s ∈ srcs, (streamingSourceSpec s).isSome = true) :
    srcs.mapM sourceToHls = Except.ok (srcs.filterMap streamingSourceSpec) := by
  induction srcs with
  | nil => rfl
  | cons s rest ih =>
    obtain ⟨it, hit⟩ := Option.isSome_iff_exists.mp (h s (by simp))
    rw [List.mapM_cons, sourceToHls_of_spec s it hit,
      ih (fun x hx => h x (by simp [hx]))]
    simp [List.filterMap_cons, hit]
    rfl

/-- C7: for a payload whose `sources` array is non-empty and whose
entries each carry a string `file` value, extraction maps each entry in
input order to the spec's streaming source: `label` defaulting to
"Unknown", `type` defaulting to "Unknown", `isDefault` defaulting to
false, and the url taken as-is when the file value begins with "http"
and otherwise prefixed with the upstream origin. -/
theorem hls_source_mapping (srcs : List JsonVal) (hne : srcs ≠ [])
    (h : ∀ s ∈ srcs, (streamingSourceSpec s).isSome = true) :
    get_hls_url (ProcessedData.json (JsonVal.obj [("sources", JsonVal.arr srcs)])) =
      Except.ok (srcs.filterMap streamingSourceSpec) := by
  cases srcs with
  | nil => exact absurd rfl hne
  | cons x xs =>
    have hred : get_hls_url (ProcessedData.json
        (JsonVal.obj [("sources", JsonVal.arr (x :: xs))])) =
        (x :: xs).mapM sourceToHls := rfl
    rw [hred]
    exact mapM_sourceToHls _ h

/-- C7 witness: the claim's own instance — the payload holding
`sources = [(file: /x.m3u8, label: HD)]` yields exactly one source with
the absolute URL on the upstream origin, type "Unknown" and
isDefault=false. -/
theorem hls_source_mapping_witness :
    ([JsonVal.obj [("file", JsonVal.str "/x.m3u8"), ("label", JsonVal.str "HD")]] ≠
      ([] : List JsonVal)) ∧
    (∀ s ∈ [JsonVal.obj [("file", JsonVal.str "/x.m3u8"),
                         ("label", JsonVal.str "HD")]],
      (streamingSourceSpec s).isSome = true) ∧
    get_hls_url (ProcessedData.json (JsonVal.obj [("sources", JsonVal.arr
        [JsonVal.obj [("file", JsonVal.str "/x.m3u8"),
                      ("label", JsonVal.str "HD")]])])) =
      Except.ok [⟨JsonVal.str "HD", "https://netfree2.cc/x.m3u8",
                  JsonVal.str "Unknown", JsonVal.bool false⟩] := by
  have h : ∀ s ∈ [JsonVal.obj [("file", JsonVal.str "/x.m3u8"),
                               ("label", JsonVal.str "HD")]],
      (streamingSourceSpec s).isSome = true := by
    intro s hs
    rw [List.mem_singleton] at hs
    rw [hs]
    rfl
  exact ⟨List.cons_ne_nil _ _, h,
    (hls_source_mapping _ (List.cons_ne_nil _ _) h).trans rfl⟩

/-- C2 counterexample: with `useFreshCredentials=true`, a first fetch
whose outcome after classification and step-3 reclassification has
status 404 (≥ 400) — raw transport status 200, text body "404 Not
Found", no transport error — triggers no refresh and no re-fetch: the
code decides the retry (line 306) on the raw `http_code`/`error`
before classification ever runs, so the envelope reflects the first
outcome and the counts stay at one fetch, zero refreshes. -/
theorem reclassified_failure_does_not_retry :
    (classifyOutcome jpNone softFailOutcome).2.1 = 404 ∧
    (get_playlist softFailOutcome okOutcome jpNone true true).fetchCalls = 1 ∧
    (get_playlist softFailOutcome okOutcome jpNone true true).refreshCalls = 0 ∧
    (get_playlist softFailOutcome okOutcome jpNone true true).envelope =
      assembleEnvelope jpNone softFailOutcome := by
  exact ⟨rfl, rfl, rfl, rfl⟩

/-- C2 amended: the retry trigger is the first attempt's RAW transport
outcome — `http_code ≥ 400` or a (truthy) transport error — checked
before any classification.  When it fires under
`useFreshCredentials=true`, exactly one refresh then exactly one
re-fetch with fresh credentials forced occur (plus the warm-up refresh
when no `latest` credential existed), classification and
reclassification run once on the retried outcome, the final envelope
reflects that outcome, and no further retries occur. -/
theorem retry_on_raw_failure (o1 o2 : FetchOutcome)
    (jp : String → Option JsonVal) (hasLatest : Bool)
    (h : 400 ≤ o1.http_code ∨ truthyOptStr o1.error = true) :
    get_playlist o1 o2 jp true hasLatest =
      ⟨assembleEnvelope jp o2, 2, (if hasLatest then 0 else 1) + 1⟩ := by
  have hr : ((decide (400 ≤ o1.http_code) || truthyOptStr o1.error) && true) = true := by
    rcases h with h | h
    · simp [h]
    · simp [h]
  simp only [get_playlist, hr]
  cases hasLatest with
  | true => rfl
  | false => rfl

/-- C2 amended witness: a raw 503 connection-failure first outcome with
a warm `latest` slot retries exactly once. -/
theorem retry_on_raw_failure_witness :
    (400 ≤ connFailOutcome.http_code ∨ truthyOptStr connFailOutcome.error = true) ∧
    get_playlist connFailOutcome okOutcome jpNone true true =
      ⟨assembleEnvelope jpNone okOutcome, 2, 1⟩ := by
  refine ⟨Or.inl (by decide), ?_⟩
  exact (retry_on_raw_failure connFailOutcome okOutcome jpNone true
    (Or.inl (by decide))).trans rfl

end NetFree
